import Mathlib

/-!
Shallow embedding of `app.py` (Flask intake service for care requests and
appointment requests): the anti-abuse and submission-validation pipeline —
per-client sliding-window rate limiter, CSRF token with minimum-fill-time
check, honeypot check, field validation and sanitization, and the mail
notifier boundary.

Modelling conventions:
* timestamps (`time.time()`) are integers (`Int`): every temporal check in
  the source is an order comparison against an integer constant, so the
  pipeline logic is insensitive to the sub-second float precision this
  abstracts away;
* the module-level `request_log : Dict[str, deque]` (a `defaultdict(deque)`)
  is a total function `String → List Int` defaulting to `[]`, the deque kept
  oldest first;
* JSON values are the inductive `JVal`; a Python exception escaping a code
  path is `Except.error (e : PyErr)`;
* `secrets.token_hex(16)` is abstracted as an explicit `newToken : String`
  parameter of each request-handling function (one token generation per
  response, exactly as each response calls `issue_csrf_token()` once);
* the SMTP session inside `send_email`'s `try` block is abstracted as an
  `SmtpOutcome` parameter (it either succeeds or raises, and every raise is
  caught by the `except Exception` handler).
-/

namespace App

/-- Python exception kinds raised by the embedded code paths:
`AttributeError` (e.g. `.strip()` on a non-string), `TypeError`
(e.g. `re.sub` on a non-string), `ValueError` (e.g. `int('abc')`). -/
inductive PyErr where
  | attributeError
  | typeError
  | valueError
  deriving DecidableEq, Repr

/-- A JSON value as delivered by `request.get_json()`.  JSON `null` parses to
Python `None`. -/
inductive JVal where
  | str (s : String)
  | num (n : Int)
  | null
  | bool (b : Bool)
  deriving DecidableEq, Repr

/-- Python truthiness of a JSON value: empty string, `0`, `None` and `False`
are falsy. -/
def jTruthy : JVal → Bool
  | .str s => s ≠ ""
  | .num n => n ≠ 0
  | .null => false
  | .bool b => b

/-- Python truthiness of `payload.get(key)` (absent key gives `None`). -/
def optTruthy : Option JVal → Bool
  | none => false
  | some v => jTruthy v

/-- Python truthiness of an optional string (`None` and `''` are falsy). -/
def strTruthy : Option String → Bool
  | none => false
  | some s => s ≠ ""

/-- `payload.get(field, '')`: the stored value if the key is present, the
string default otherwise. -/
def pGet : List (String × JVal) → String → JVal
  | [], _ => .str ""
  | (k, v) :: rest, key => if key = k then v else pGet rest key

/-- `payload.get(field)`: the stored value if the key is present, `None`
otherwise. -/
def pGetOpt : List (String × JVal) → String → Option JVal
  | [], _ => none
  | (k, v) :: rest, key => if key = k then some v else pGetOpt rest key

/-- Python `str` whitespace (the ASCII members of the `\s` class used by
`str.strip()` and the regexes): space, tab, newline, carriage return,
vertical tab, form feed. -/
def pyIsSpace (c : Char) : Bool :=
  c = ' ' || c = '\t' || c = '\n' || c = '\r' || c = '\x0b' || c = '\x0c'

/-- `str.strip()`: drop leading and trailing whitespace. -/
def pyStripChars (l : List Char) : List Char :=
  ((l.dropWhile pyIsSpace).reverse.dropWhile pyIsSpace).reverse

/-- `str.strip()` on a `String`. -/
def pyStrip (s : String) : String :=
  (pyStripChars s.data).asString

/-- `value.strip()` on a JSON value: only strings have `.strip`; every other
JSON value raises `AttributeError`. -/
def jStrip : JVal → Except PyErr String
  | .str s => .ok (pyStrip s)
  | _ => .error .attributeError

/-! ### The sliding-window rate limiter (`request_log`, `_clear_expired`,
`is_rate_limited`) -/

/-- `RATE_LIMIT_MAX = 5`. -/
def RATE_LIMIT_MAX : Nat := 5

/-- `RATE_LIMIT_WINDOW = 600` seconds (10 minutes). -/
def RATE_LIMIT_WINDOW : Int := 600

/-- The module-level `request_log : Dict[str, deque]`, a `defaultdict(deque)`:
a total function from client identity to its window of timestamps, oldest
first, defaulting to the empty window. -/
def RateState := String → List Int

/-- The initial `request_log`: every identity maps to an empty deque. -/
def emptyRateState : RateState := fun _ => []

/-- Pointwise update of the `request_log` map at one identity. -/
def updLog (st : RateState) (ip : String) (w : List Int) : RateState :=
  fun k => if k = ip then w else st k

/-- `_clear_expired(ip, now_ts)`: pop timestamps from the front of the deque
while the front entry is strictly older than `RATE_LIMIT_WINDOW` relative to
`now_ts`. -/
def clearExpired (now : Int) : List Int → List Int
  | [] => []
  | t :: rest =>
    if now - t > RATE_LIMIT_WINDOW then clearExpired now rest else t :: rest

/-- `is_rate_limited(ip)`: clear expired entries, then reject (`true`) without
recording `now` if the remaining window has at least `RATE_LIMIT_MAX` entries,
otherwise append `now` and admit (`false`).  The cleared (and possibly
extended) window is stored back into `request_log`. -/
def isRateLimited (st : RateState) (ip : String) (now : Int) : Bool × RateState :=
  let w := clearExpired now (st ip)
  if RATE_LIMIT_MAX ≤ w.length then (true, updLog st ip w)
  else (false, updLog st ip (w ++ [now]))

/-- Run a sequence of `is_rate_limited` calls for one identity, collecting the
limited/admitted booleans and the final `request_log`. -/
def admitSeq (st : RateState) (ip : String) : List Int → List Bool × RateState
  | [] => ([], st)
  | t :: ts =>
    ((isRateLimited st ip t).1 :: (admitSeq (isRateLimited st ip t).2 ip ts).1,
     (admitSeq (isRateLimited st ip t).2 ip ts).2)

/-- Run a sequence of `is_rate_limited` calls for arbitrary identities,
returning the final `request_log`. -/
def runAdmits : List (String × Int) → RateState → RateState
  | [], st => st
  | c :: rest, st => runAdmits rest (isRateLimited st c.1 c.2).2

/-! ### `sanitize`: regex tag stripping plus trimming -/

/-- Helper for matching the regex `<[^>]+>` at a position: scan forward for
the first `>` and return the remainder after it, or `none` when no `>`
follows. -/
def skipToGt : List Char → Option (List Char)
  | [] => none
  | c :: rest => if c = '>' then some rest else skipToGt rest

theorem skipToGt_length {l rem : List Char} (h : skipToGt l = some rem) :
    rem.length < l.length := by
  induction l with
  | nil => simp [skipToGt] at h
  | cons c rest ih =>
    by_cases hc : c = '>'
    · simp [skipToGt, hc] at h
      simp [← h]
    · simp [skipToGt, hc] at h
      exact Nat.lt_succ_of_lt (ih h)

/-- Attempt to match the regex `<[^>]+>` given the characters after a `<`:
the class `[^>]+` needs at least one non-`>` character, then a literal `>`
must follow.  Returns the remainder after the match, or `none` when the
match fails at this position. -/
def tagEnd : List Char → Option (List Char)
  | [] => none
  | c :: rest => if c = '>' then none else skipToGt rest

theorem tagEnd_length {l rem : List Char} (h : tagEnd l = some rem) :
    rem.length < l.length + 1 := by
  cases l with
  | nil => simp [tagEnd] at h
  | cons c rest =>
    by_cases hc : c = '>'
    · simp [tagEnd, hc] at h
    · simp [tagEnd, hc] at h
      exact Nat.lt_succ_of_lt (Nat.lt_succ_of_lt (skipToGt_length h))

/-- `re.sub(r'<[^>]+>', '', value)`: scan left to right; at each `<` try to
match a complete tag (at least one non-`>` character, then `>`) and drop it;
characters not inside a match are kept. -/
def stripTagsChars : List Char → List Char
  | [] => []
  | c :: rest =>
    if c = '<' then
      match h : tagEnd rest with
      | some rem => stripTagsChars rem
      | none => c :: stripTagsChars rest
    else c :: stripTagsChars rest
      termination_by l => l.length
      decreasing_by
        · simpa using tagEnd_length h
        · simp
        · simp

/-- `sanitize(value)` on a string argument:
`re.sub(r'<[^>]+>', '', value).strip()`. -/
def stripTagsAndTrim (s : String) : String :=
  (pyStripChars (stripTagsChars s.data)).asString

/-- `sanitize(value)` as applied to a JSON value taken from the payload:
a falsy value (including any falsy non-string) returns `''` at once; a truthy
string is tag-stripped and trimmed; a truthy non-string raises `TypeError`
inside `re.sub`. -/
def sanitizeJ : JVal → Except PyErr String
  | v =>
    if jTruthy v then
      match v with
      | .str s => .ok (stripTagsAndTrim s)
      | _ => .error .typeError
    else .ok ""

/-! ### The email regex `EMAIL_REGEX = ^[^@\s]+@[^@\s]+\.[^@\s]+$` -/

/-- The character class `[^@\s]` of `EMAIL_REGEX`. -/
def emailAtomChar (c : Char) : Bool :=
  !(c = '@' || pyIsSpace c)

/-- Anchored match of the tail `[^@\s]+\.[^@\s]+$` of `EMAIL_REGEX` against
the part after the `@`: since `.` itself lies in the class `[^@\s]`, the tail
matches exactly when every character is in the class and some `.` occurs at a
position that is neither first nor last. -/
def emailTailOk (l : List Char) : Bool :=
  l.all emailAtomChar && ((l.drop 1).dropLast.contains '.')

/-- Anchored match of `EMAIL_REGEX` (`^[^@\s]+@[^@\s]+\.[^@\s]+$`): since no
class admits `@`, the first `[^@\s]+` greedily consumes the maximal `@`-free,
whitespace-free prefix, which must be non-empty and be followed by the
literal `@`; the rest must match the tail. -/
def emailMatchChars (l : List Char) : Bool :=
  let part1 := l.takeWhile emailAtomChar
  match l.dropWhile emailAtomChar with
  | '@' :: rest => !part1.isEmpty && emailTailOk rest
  | _ => false

/-- `EMAIL_REGEX.match(email_value)` as a boolean.  (Python's `$` can also
match just before a trailing newline; that case is unreachable here because
both call sites apply `.strip()` to the value first, and a stripped string
never ends in a newline.) -/
def emailMatch (s : String) : Bool :=
  emailMatchChars s.data

/-! ### Session and CSRF token (`issue_csrf_token`) -/

/-- The Flask session as used by the pipeline: `session['csrf_token']` and
`session['form_time']` (`int(time.time())`), each possibly absent. -/
structure Session where
  csrf_token : Option String
  form_time : Option Int
  deriving DecidableEq, Repr

/-- `issue_csrf_token()`: store a freshly generated token and the issuance
timestamp `int(time.time())` in the session (the generated token itself is
the `tok` argument; `secrets.token_hex(16)` is abstracted as this explicit
input, and `int()` truncation is the identity on the integer time axis). -/
def issueCsrfToken (now : Int) (tok : String) : Session :=
  { csrf_token := some tok, form_time := some now }

/-- Python `==` between the supplied `payload.get('csrf_token')` (a JSON
value, where JSON `null` is Python `None`) and the stored
`session.get('csrf_token')` (a string or `None`). -/
def pyEqTokens : Option JVal → Option String → Bool
  | none, none => true
  | some .null, none => true
  | some (.str s), some t => s = t
  | _, _ => false

/-- `not form_time or time.time() - form_time < 3`: the stored issuance time
is absent or falsy (`0`), or less than `MIN_FILL_SECONDS = 3` seconds old. -/
def formTimeBad (ft : Option Int) (now : Int) : Bool :=
  match ft with
  | none => true
  | some t => t == 0 || decide (now - t < 3)

/-! ### Field validation (the required-fields loop and the email check,
identical in `request_care` and `submit_appointment`) -/

/-- Python `dict` assignment `d[k] = v`: overwrite in place when the key is
present, append otherwise (insertion order preserved). -/
def dictInsert (d : List (String × String)) (k v : String) : List (String × String) :=
  if d.any (fun p => p.1 = k) then
    d.map (fun p => if p.1 = k then (k, v) else p)
  else d ++ [(k, v)]

/-- The required-fields loop: for each `(field, message)` in order, compute
`payload.get(field, '').strip()` (which raises `AttributeError` on a
non-string JSON value) and record `errors[field] = message` when the trimmed
value is empty. -/
def collectRequiredErrors (payload : List (String × JVal)) :
    List (String × String) → List (String × String) →
      Except PyErr (List (String × String))
  | [], errors => .ok errors
  | (field, message) :: rest, errors =>
    match jStrip (pGet payload field) with
    | .error e => .error e
    | .ok value =>
      collectRequiredErrors payload rest
        (if value = "" then dictInsert errors field message else errors)

/-- The full validation block of a submission handler: the required-fields
loop, then `email_value = payload.get('email', '').strip()` and, only when
`email_value` is non-empty, the `EMAIL_REGEX` format check recording
`errors['email']`. -/
def validateFields (payload : List (String × JVal))
    (reqs : List (String × String)) : Except PyErr (List (String × String)) :=
  match collectRequiredErrors payload reqs [] with
  | .error e => .error e
  | .ok errors =>
    match jStrip (pGet payload "email") with
    | .error e => .error e
    | .ok emailValue =>
      if emailValue = "" then .ok errors
      else if emailMatch emailValue then .ok errors
      else .ok (dictInsert errors "email" "Please enter a valid email address.")

/-- The `safe_payload` comprehension:
`{key: sanitize(payload.get(key, '')) for key in keys}`. -/
def sanitizePayload (payload : List (String × JVal)) :
    List String → Except PyErr (List (String × String))
  | [] => .ok []
  | key :: rest =>
    match sanitizeJ (pGet payload key) with
    | .error e => .error e
    | .ok clean =>
      match sanitizePayload payload rest with
      | .error e => .error e
      | .ok tail => .ok ((key, clean) :: tail)

/-! ### The two submission endpoints -/

/-- The two POST submission endpoints of the app. -/
inductive SubmitEndpoint where
  | care
  | appointment
  deriving DecidableEq, Repr

/-- The Flask endpoint name (the view function's name). -/
def endpointName : SubmitEndpoint → String
  | .care => "request_care"
  | .appointment => "submit_appointment"

/-- The honeypot field of each endpoint: `service_interest` for care
requests, `appointment_guard` for appointments. -/
def honeypotField : SubmitEndpoint → String
  | .care => "service_interest"
  | .appointment => "appointment_guard"

/-- `required_fields` of `request_care`, in source (dict-insertion) order. -/
def careRequiredFields : List (String × String) :=
  [("full_name", "Full name is required."),
   ("phone", "Phone number is required."),
   ("email", "Valid email is required."),
   ("address", "Address is required."),
   ("start_date", "Preferred start date is required."),
   ("care_type", "Care type selection is required.")]

/-- `required_fields` of `submit_appointment`, in source order. -/
def appointmentRequiredFields : List (String × String) :=
  [("full_name", "Full name is required."),
   ("email", "A valid email is required."),
   ("phone", "Phone number is required."),
   ("preferred_date", "Preferred date is required."),
   ("preferred_time", "Preferred time is required.")]

/-- The required-fields set of an endpoint. -/
def requiredFields : SubmitEndpoint → List (String × String)
  | .care => careRequiredFields
  | .appointment => appointmentRequiredFields

/-- The keys of the `safe_payload` comprehension of each endpoint. -/
def sanitizeKeys : SubmitEndpoint → List String
  | .care => ["full_name", "phone", "email", "address", "start_date",
              "care_type", "notes"]
  | .appointment => ["full_name", "email", "phone", "preferred_date",
                     "preferred_time", "reason"]

/-- The tagged outcome of one request, covering the 429 short-circuit of the
`before_request` hook and every return of the two submission handlers. -/
inductive Outcome where
  | rateLimited
  | invalidFormat
  | honeypotReject
  | csrfMismatch
  | botTiming
  | validationReject (errors : List (String × String))
  | sent (ok : Bool) (message : String) (safePayload : List (String × String))
  deriving DecidableEq, Repr

/-- A JSON response of the pipeline: the outcome, the `csrf_token` value
embedded in the response body, and the HTTP status code. -/
structure Response where
  outcome : Outcome
  csrfToken : String
  status : Nat
  deriving DecidableEq, Repr

/-- The body of `request_care` / `submit_appointment` (they differ only in
honeypot field, required-field set, sanitize keys, and the notifier template):
JSON-format check, honeypot check, CSRF token check, minimum-fill-time check,
field validation, sanitization, then the notifier call whose `(ok, message)`
outcome is the `mail` argument.  Every return calls `issue_csrf_token()`. -/
def handleSubmission (ep : SubmitEndpoint) (isJson : Bool)
    (payload : List (String × JVal)) (sess : Session) (now : Int)
    (newToken : String) (mail : Bool × String) :
    Except PyErr (Response × Session) :=
  if !isJson then
    .ok (⟨.invalidFormat, newToken, 400⟩, issueCsrfToken now newToken)
  else if optTruthy (pGetOpt payload (honeypotField ep)) then
    .ok (⟨.honeypotReject, newToken, 400⟩, issueCsrfToken now newToken)
  else if !optTruthy (pGetOpt payload "csrf_token")
      || !pyEqTokens (pGetOpt payload "csrf_token") sess.csrf_token then
    .ok (⟨.csrfMismatch, newToken, 400⟩, issueCsrfToken now newToken)
  else if formTimeBad sess.form_time now then
    .ok (⟨.botTiming, newToken, 400⟩, issueCsrfToken now newToken)
  else
    match validateFields payload (requiredFields ep) with
    | .error e => .error e
    | .ok errors =>
      if errors ≠ [] then
        .ok (⟨.validationReject errors, newToken, 400⟩, issueCsrfToken now newToken)
      else
        match sanitizePayload payload (sanitizeKeys ep) with
        | .error e => .error e
        | .ok safe =>
          .ok (⟨.sent mail.1 mail.2 safe, newToken,
                if mail.1 then 200 else 500⟩,
               issueCsrfToken now newToken)

/-! ### The `before_request` rate-limit hook and the full request flow -/

/-- `client_ip = request.headers.get('X-Forwarded-For', request.remote_addr)`:
the proxy-forwarded header when present, otherwise the peer address (which
may itself be absent). -/
def clientIdentity (xff remoteAddr : Option String) : Option String :=
  match xff with
  | some v => some v
  | none => remoteAddr

/-- `apply_simple_rate_limit()`: only for a POST to the `request_care`
endpoint, and only when `client_ip` is truthy, consult (and update) the rate
limiter; return whether the request is rejected with 429, together with the
updated `request_log`. -/
def applySimpleRateLimit (endpoint method : String)
    (xff remoteAddr : Option String) (st : RateState) (now : Int) :
    Bool × RateState :=
  if endpoint = "request_care" ∧ method = "POST" then
    match clientIdentity xff remoteAddr with
    | some ip => if ip ≠ "" then isRateLimited st ip now else (false, st)
    | none => (false, st)
  else (false, st)

/-- One full POST to a submission endpoint: the `before_request` hook runs
first (before any body parsing); a 429 short-circuits with a reissued token;
otherwise the endpoint's handler body runs. -/
def processSubmission (ep : SubmitEndpoint) (xff remoteAddr : Option String)
    (isJson : Bool) (payload : List (String × JVal)) (st : RateState)
    (sess : Session) (now : Int) (newToken : String) (mail : Bool × String) :
    Except PyErr (Response × RateState × Session) :=
  let hook := applySimpleRateLimit (endpointName ep) "POST" xff remoteAddr st now
  if hook.1 then
    .ok (⟨.rateLimited, newToken, 429⟩, hook.2, issueCsrfToken now newToken)
  else
    match handleSubmission ep isJson payload sess now newToken mail with
    | .error e => .error e
    | .ok (resp, sess') => .ok (resp, hook.2, sess')

/-! ### The notifier boundary (`send_email`) -/

/-- The mail-related environment variables read by `send_email`, each
possibly absent. -/
structure MailEnv where
  MAIL_SERVER : Option String
  MAIL_PORT : Option String
  MAIL_USERNAME : Option String
  MAIL_PASSWORD : Option String
  MAIL_USE_TLS : Option String
  MAIL_USE_SSL : Option String
  DESTINATION_EMAIL : Option String
  deriving DecidableEq, Repr

/-- Python `int(s)` on a string: strip whitespace, optional sign, then a
non-empty run of decimal digits; anything else raises `ValueError`.
(Underscore digit separators are not modelled; none of the inputs of
interest use them.) -/
def pyInt (s : String) : Except PyErr Int :=
  let l := pyStripChars s.data
  let signed : Int × List Char :=
    match l with
    | '+' :: rest => (1, rest)
    | '-' :: rest => (-1, rest)
    | _ => (1, l)
  if !signed.2.isEmpty && signed.2.all Char.isDigit then
    .ok (signed.1 *
      (signed.2.foldl (fun acc c => acc * 10 + (c.toNat - 48)) 0 : Nat))
  else .error .valueError

/-- Outcome of the SMTP session inside `send_email`'s `try` block: it either
delivers the message or raises some exception (every exception is caught by
the `except Exception` handler).  Which of the SSL/TLS branches runs does not
change this shape. -/
inductive SmtpOutcome where
  | success
  | raised
  deriving DecidableEq, Repr

/-- `send_email(subject, reply_to, body)`: read the environment (the
`int(...)` around `MAIL_PORT` runs before anything else can fail and is NOT
inside the `try` block, so a malformed value raises out of the function);
report missing configuration as a `(False, message)` result; otherwise run
the SMTP session, mapping any exception it raises to
`(False, 'Unable to send email at this time.')`. -/
def sendEmail (env : MailEnv) (_subject _replyTo _body : String)
    (smtp : SmtpOutcome) : Except PyErr (Bool × String) :=
  match pyInt ((env.MAIL_PORT).getD "587") with
  | .error e => .error e
  | .ok port =>
    if !(strTruthy env.MAIL_SERVER && !(port == 0)
          && strTruthy env.MAIL_USERNAME && strTruthy env.MAIL_PASSWORD
          && strTruthy env.DESTINATION_EMAIL) then
      .ok (false, "Email configuration missing. Please set environment variables.")
    else
      match smtp with
      | .success => .ok (true, "Request sent successfully.")
      | .raised => .ok (false, "Unable to send email at this time.")

/-- Whether a handler run produced a response (no Python exception). -/
def isOkB {α : Type} : Except PyErr α → Bool
  | .ok _ => true
  | .error _ => false

/-! ## Shared lemmas about the rate limiter -/

theorem updLog_same (st : RateState) (ip : String) (w : List Int) :
    updLog st ip w ip = w := by
  simp [updLog]

theorem updLog_other (st : RateState) (ip k : String) (w : List Int)
    (h : k ≠ ip) : updLog st ip w k = st k := by
  simp [updLog, h]

theorem clearExpired_keep {now t : Int} (l : List Int)
    (h : ¬ now - t > RATE_LIMIT_WINDOW) :
    clearExpired now (t :: l) = t :: l := by
  simp [clearExpired, h]

theorem clearExpired_drop {now t : Int} (l : List Int)
    (h : now - t > RATE_LIMIT_WINDOW) :
    clearExpired now (t :: l) = clearExpired now l := by
  simp [clearExpired, h]

theorem clearExpired_length_le (now : Int) (l : List Int) :
    (clearExpired now l).length ≤ l.length := by
  induction l with
  | nil => simp [clearExpired]
  | cons t rest ih =>
    by_cases h : now - t > RATE_LIMIT_WINDOW
    · rw [clearExpired_drop rest h]
      exact Nat.le_succ_of_le ih
    · rw [clearExpired_keep rest h]

theorem clearExpired_eq_dropWhile (now : Int) (l : List Int) :
    clearExpired now l =
      l.dropWhile (fun t => decide (now - t > RATE_LIMIT_WINDOW)) := by
  induction l with
  | nil => simp [clearExpired]
  | cons t rest ih =>
    by_cases h : now - t > RATE_LIMIT_WINDOW
    · rw [clearExpired_drop rest h, ih, List.dropWhile_cons_of_pos (by simpa using h)]
    · rw [clearExpired_keep rest h, List.dropWhile_cons_of_neg (by simpa using h)]

theorem isRateLimited_reject (st : RateState) (ip : String) (now : Int)
    (h : RATE_LIMIT_MAX ≤ (clearExpired now (st ip)).length) :
    isRateLimited st ip now = (true, updLog st ip (clearExpired now (st ip))) := by
  simp [isRateLimited, h]

theorem isRateLimited_admitted (st : RateState) (ip : String) (now : Int)
    (h : (clearExpired now (st ip)).length < RATE_LIMIT_MAX) :
    isRateLimited st ip now =
      (false, updLog st ip (clearExpired now (st ip) ++ [now])) := by
  simp [isRateLimited, Nat.not_le.mpr h]

/-- Scenario step: an `is_rate_limited` call seen through the known window
of its identity, when nothing is evicted and there is room. -/
theorem isRateLimited_step_admitted (s : RateState) (ip : String) (tk : Int)
    (w : List Int) (hw : s ip = w) (hkeep : clearExpired tk w = w)
    (hlen : w.length < RATE_LIMIT_MAX) :
    isRateLimited s ip tk = (false, updLog s ip (w ++ [tk])) := by
  rw [isRateLimited_admitted s ip tk (by rw [hw, hkeep]; exact hlen), hw, hkeep]

/-- Scenario step: an `is_rate_limited` call seen through the known window
of its identity, when nothing is evicted and the window is full. -/
theorem isRateLimited_step_reject (s : RateState) (ip : String) (tk : Int)
    (w : List Int) (hw : s ip = w) (hkeep : clearExpired tk w = w)
    (hlen : RATE_LIMIT_MAX ≤ w.length) :
    isRateLimited s ip tk = (true, updLog s ip w) := by
  rw [isRateLimited_reject s ip tk (by rw [hw, hkeep]; exact hlen), hw, hkeep]

/-! ## Claim theorems -/

/-- C4: for every identity and call time `now`, the admit check first evicts
the contiguous oldest-first prefix of timestamps strictly older than 600
seconds relative to `now` (conjunct (a)); if the remaining window has at
least 5 entries it rejects without appending `now` (b), otherwise it appends
`now` and admits (c).  Consequently (d): starting from an empty window, five
admits at `t0 ≤ t1 ≤ t2 ≤ t3 ≤ t4` are all admitted, a sixth attempt at
`t5 ≥ t4` within 600 seconds of `t0` is rejected, and a seventh attempt at
any `t6` with `t6 - t0 > 600` (the first timestamp plus the window plus any
positive amount) is admitted even though the window was previously full. -/
theorem C4_sliding_window (st : RateState) (ip : String)
    (now t0 t1 t2 t3 t4 t5 t6 : Int)
    (h01 : t0 ≤ t1) (h12 : t1 ≤ t2) (h23 : t2 ≤ t3) (h34 : t3 ≤ t4)
    (h45 : t4 ≤ t5) (h05 : t5 - t0 ≤ RATE_LIMIT_WINDOW)
    (h6 : t6 - t0 > RATE_LIMIT_WINDOW) :
    (clearExpired now (st ip) =
      (st ip).dropWhile (fun t => decide (now - t > RATE_LIMIT_WINDOW))) ∧
    (RATE_LIMIT_MAX ≤ (clearExpired now (st ip)).length →
      isRateLimited st ip now =
        (true, updLog st ip (clearExpired now (st ip)))) ∧
    ((clearExpired now (st ip)).length < RATE_LIMIT_MAX →
      isRateLimited st ip now =
        (false, updLog st ip (clearExpired now (st ip) ++ [now]))) ∧
    (st ip = [] →
      (admitSeq st ip [t0, t1, t2, t3, t4, t5, t6]).1 =
        [false, false, false, false, false, true, false]) := by
  have hwin : (600 : Int) = RATE_LIMIT_WINDOW := rfl
  refine ⟨clearExpired_eq_dropWhile now (st ip),
          isRateLimited_reject st ip now,
          isRateLimited_admitted st ip now, ?_⟩
  intro h0
  have hmax : RATE_LIMIT_MAX = 5 := rfl
  have e0 : isRateLimited st ip t0 = (false, updLog st ip ([] ++ [t0])) :=
    isRateLimited_step_admitted st ip t0 [] h0 rfl (by simp [RATE_LIMIT_MAX])
  have e1 : isRateLimited (updLog st ip ([] ++ [t0])) ip t1 =
      (false, updLog (updLog st ip ([] ++ [t0])) ip ([t0] ++ [t1])) :=
    isRateLimited_step_admitted _ ip t1 [t0] (updLog_same ..)
      (clearExpired_keep _ (by rw [← hwin]; omega)) (by simp [RATE_LIMIT_MAX])
  have e2 : isRateLimited (updLog (updLog st ip ([] ++ [t0])) ip ([t0] ++ [t1])) ip t2 =
      (false, updLog (updLog (updLog st ip ([] ++ [t0])) ip ([t0] ++ [t1])) ip
        ([t0, t1] ++ [t2])) :=
    isRateLimited_step_admitted _ ip t2 [t0, t1] (updLog_same ..)
      (clearExpired_keep _ (by rw [← hwin]; omega)) (by simp [RATE_LIMIT_MAX])
  have e3 : isRateLimited
      (updLog (updLog (updLog st ip ([] ++ [t0])) ip ([t0] ++ [t1])) ip
        ([t0, t1] ++ [t2])) ip t3 =
      (false, updLog (updLog (updLog (updLog st ip ([] ++ [t0])) ip
        ([t0] ++ [t1])) ip ([t0, t1] ++ [t2])) ip ([t0, t1, t2] ++ [t3])) :=
    isRateLimited_step_admitted _ ip t3 [t0, t1, t2] (updLog_same ..)
      (clearExpired_keep _ (by rw [← hwin]; omega)) (by simp [RATE_LIMIT_MAX])
  have e4 : isRateLimited
      (updLog (updLog (updLog (updLog st ip ([] ++ [t0])) ip ([t0] ++ [t1])) ip
        ([t0, t1] ++ [t2])) ip ([t0, t1, t2] ++ [t3])) ip t4 =
      (false, updLog (updLog (updLog (updLog (updLog st ip ([] ++ [t0])) ip
        ([t0] ++ [t1])) ip ([t0, t1] ++ [t2])) ip ([t0, t1, t2] ++ [t3])) ip
        ([t0, t1, t2, t3] ++ [t4])) :=
    isRateLimited_step_admitted _ ip t4 [t0, t1, t2, t3] (updLog_same ..)
      (clearExpired_keep _ (by rw [← hwin]; omega)) (by simp [RATE_LIMIT_MAX])
  have e5 : isRateLimited
      (updLog (updLog (updLog (updLog (updLog st ip ([] ++ [t0])) ip
        ([t0] ++ [t1])) ip ([t0, t1] ++ [t2])) ip ([t0, t1, t2] ++ [t3])) ip
        ([t0, t1, t2, t3] ++ [t4])) ip t5 =
      (true, updLog (updLog (updLog (updLog (updLog (updLog st ip
        ([] ++ [t0])) ip ([t0] ++ [t1])) ip ([t0, t1] ++ [t2])) ip
        ([t0, t1, t2] ++ [t3])) ip ([t0, t1, t2, t3] ++ [t4])) ip
        [t0, t1, t2, t3, t4]) :=
    isRateLimited_step_reject _ ip t5 [t0, t1, t2, t3, t4] (updLog_same ..)
      (clearExpired_keep _ (by rw [← hwin]; omega)) (by simp [RATE_LIMIT_MAX])
  have e6 : ∀ s6 : RateState, s6 ip = [t0, t1, t2, t3, t4] →
      (isRateLimited s6 ip t6).1 = false := by
    intro s6 hs6
    have hdrop : clearExpired t6 (s6 ip) = clearExpired t6 [t1, t2, t3, t4] := by
      rw [hs6]
      exact clearExpired_drop _ (by rw [← hwin]; omega)
    have hlen : (clearExpired t6 (s6 ip)).length < RATE_LIMIT_MAX := by
      rw [hdrop, hmax]
      have := clearExpired_length_le t6 [t1, t2, t3, t4]
      simp at this ⊢
      omega
    rw [isRateLimited_admitted s6 ip t6 hlen]
  simp only [admitSeq, e0, e1, e2, e3, e4, e5]
  simp only [List.nil_append, List.cons_append] at *
  rw [e6 _ (updLog_same ..)]

/-- Witness for C4: a concrete run — five admits at times 0…4 from an empty
window, rejection at time 5, admission at time 601. -/
theorem C4_sliding_window_witness :
    (admitSeq emptyRateState "1.2.3.4" [0, 1, 2, 3, 4, 5, 601]).1 =
      [false, false, false, false, false, true, false] :=
  (C4_sliding_window emptyRateState "1.2.3.4" 0 0 1 2 3 4 5 601
    (by decide) (by decide) (by decide) (by decide) (by decide)
    (by decide) (by decide)).2.2.2 rfl

/-- C9: for every identity, after any sequence of `is_rate_limited` calls
starting from the empty map, the stored window of that identity holds at
most `RATE_LIMIT_MAX` (5) timestamps: the check appends only when the
post-eviction size is below the cap. -/
theorem C9_window_bounded (calls : List (String × Int)) (ip : String) :
    (runAdmits calls emptyRateState ip).length ≤ RATE_LIMIT_MAX := by
  have key : ∀ (cs : List (String × Int)) (st : RateState),
      (∀ k, (st k).length ≤ RATE_LIMIT_MAX) →
      ∀ k, (runAdmits cs st k).length ≤ RATE_LIMIT_MAX := by
    intro cs
    induction cs with
    | nil =>
      intro st h k
      exact h k
    | cons c rest ih =>
      intro st h k
      refine ih _ ?_ k
      intro k'
      by_cases hlim : RATE_LIMIT_MAX ≤ (clearExpired c.2 (st c.1)).length
      · simp only [isRateLimited_reject _ _ _ hlim]
        by_cases hk : k' = c.1
        · subst hk
          rw [updLog_same]
          exact le_trans (clearExpired_length_le _ _) (h c.1)
        · rw [updLog_other _ _ _ _ hk]
          exact h k'
      · simp only [isRateLimited_admitted _ _ _ (Nat.not_le.mp hlim)]
        by_cases hk : k' = c.1
        · subst hk
          rw [updLog_same]
          have := Nat.not_le.mp hlim
          simp only [List.length_append, List.length_cons, List.length_nil]
          omega
        · rw [updLog_other _ _ _ _ hk]
          exact h k'
  exact key calls emptyRateState (fun _ => by simp [emptyRateState]) ip

/-- C1 counterexample: with the same full window for identity `"1.2.3.4"`,
a POST to the care-request endpoint is rejected by the rate limiter, but the
same POST to the appointment endpoint is not rate-limited and leaves the
limiter state untouched — the `before_request` hook tests only
`request.endpoint == 'request_care'`, so the claim that the rate-limit check
applies to every POST submission endpoint is false for `submit_appointment`. -/
theorem C1_counterexample :
    (applySimpleRateLimit "request_care" "POST" (some "1.2.3.4") none
      (updLog emptyRateState "1.2.3.4" [0, 0, 0, 0, 0]) 1).1 = true ∧
    (applySimpleRateLimit "submit_appointment" "POST" (some "1.2.3.4") none
      (updLog emptyRateState "1.2.3.4" [0, 0, 0, 0, 0]) 1).1 = false ∧
    (applySimpleRateLimit "submit_appointment" "POST" (some "1.2.3.4") none
      (updLog emptyRateState "1.2.3.4" [0, 0, 0, 0, 0]) 1).2 "1.2.3.4" =
      [0, 0, 0, 0, 0] :=
  ⟨rfl, rfl, rfl⟩

/-- C1 amended: the rate-limit check runs in the `before_request` hook
(before any body parsing — a limited request is answered 429 for every body)
keyed by the client identity, but only for POSTs to the care-request
endpoint; non-POST requests (page views) and every other endpoint, the
appointment submission endpoint included, are never rate-limited. -/
theorem C1_rate_limit_scope (endpoint method : String) (xff ra : Option String)
    (st : RateState) (now : Int) :
    (method ≠ "POST" →
      applySimpleRateLimit endpoint method xff ra st now = (false, st)) ∧
    (endpoint ≠ "request_care" →
      applySimpleRateLimit endpoint method xff ra st now = (false, st)) ∧
    (∀ ip, clientIdentity xff ra = some ip → ip ≠ "" →
      applySimpleRateLimit "request_care" "POST" xff ra st now =
        isRateLimited st ip now) ∧
    (∀ ep sess tok mail isJson payload,
      (applySimpleRateLimit (endpointName ep) "POST" xff ra st now).1 = true →
      processSubmission ep xff ra isJson payload st sess now tok mail =
        .ok (⟨.rateLimited, tok, 429⟩,
             (applySimpleRateLimit (endpointName ep) "POST" xff ra st now).2,
             issueCsrfToken now tok)) := by
  refine ⟨?_, ?_, ?_, ?_⟩
  · intro h
    simp [applySimpleRateLimit, h]
  · intro h
    simp [applySimpleRateLimit, h]
  · intro ip hip hne
    simp [applySimpleRateLimit, hip, hne]
  · intro ep sess tok mail isJson payload h
    simp [processSubmission, h]

/-- Witness for C1 amended: a GET page view is never rate-limited; a POST to
the care-request endpoint with a truthy identity consults the limiter; a
rate-limited POST to the care-request endpoint is answered 429 before its
body is looked at. -/
theorem C1_rate_limit_scope_witness :
    applySimpleRateLimit "index" "GET" (some "1.2.3.4") none emptyRateState 0 =
      (false, emptyRateState) ∧
    applySimpleRateLimit "request_care" "POST" (some "1.2.3.4") none
      emptyRateState 0 = isRateLimited emptyRateState "1.2.3.4" 0 ∧
    processSubmission .care (some "1.2.3.4") none true []
      (updLog emptyRateState "1.2.3.4" [0, 0, 0, 0, 0]) ⟨none, none⟩ 1 "t"
      (true, "m") =
      .ok (⟨.rateLimited, "t", 429⟩,
           (applySimpleRateLimit "request_care" "POST" (some "1.2.3.4") none
             (updLog emptyRateState "1.2.3.4" [0, 0, 0, 0, 0]) 1).2,
           issueCsrfToken 1 "t") :=
  ⟨(C1_rate_limit_scope "index" "GET" (some "1.2.3.4") none emptyRateState 0).1
     (by decide),
   (C1_rate_limit_scope "request_care" "POST" (some "1.2.3.4") none
     emptyRateState 0).2.2.1 "1.2.3.4" rfl (by decide),
   (C1_rate_limit_scope "request_care" "POST" (some "1.2.3.4") none
     (updLog emptyRateState "1.2.3.4" [0, 0, 0, 0, 0]) 1).2.2.2 .care
     ⟨none, none⟩ "t" (true, "m") true [] rfl⟩

/-- C2 counterexample: a care-request submission whose honeypot field is
non-empty, from identity `"9.9.9.9"` whose window starts empty, is rejected
as a honeypot — yet the final limiter state records the timestamp `100` for
that identity, because the `before_request` rate-limit hook ran (and
consumed a slot) before the handler's honeypot check.  This falsifies the
claim that a honeypot rejection does not record a timestamp in the
limiter's window. -/
theorem C2_counterexample :
    processSubmission .care (some "9.9.9.9") none true
      [("service_interest", JVal.str "x")] emptyRateState ⟨none, none⟩ 100 "t"
      (true, "m") =
      .ok (⟨.honeypotReject, "t", 400⟩, updLog emptyRateState "9.9.9.9" [100],
           issueCsrfToken 100 "t") ∧
    (updLog emptyRateState "9.9.9.9" [100]) "9.9.9.9" = [100] ∧
    emptyRateState "9.9.9.9" = [] :=
  ⟨rfl, rfl, rfl⟩

/-- C2 amended: a submission whose honeypot field is non-empty is rejected
without running the csrf, timing, validation or notification steps (the
session and the rest of the payload are irrelevant); but the rate-limit
check is not skipped: it runs in the `before_request` hook before the
handler, so on the care-request endpoint a honeypot rejection has already
consumed a slot of the identity's window (appended `now`), while on the
appointment endpoint no rate limiting runs at all and the limiter state is
untouched. -/
theorem C2_honeypot_short_circuit (payload : List (String × JVal))
    (st : RateState) (sess : Session) (now : Int) (tok : String)
    (mail : Bool × String) (ip : String) (hip : ip ≠ "")
    (hhp : optTruthy (pGetOpt payload "service_interest") = true)
    (hroom : (clearExpired now (st ip)).length < RATE_LIMIT_MAX) :
    processSubmission .care (some ip) none true payload st sess now tok mail =
      .ok (⟨.honeypotReject, tok, 400⟩,
           updLog st ip (clearExpired now (st ip) ++ [now]),
           issueCsrfToken now tok) ∧
    (∀ payload2 st2 sess2,
      optTruthy (pGetOpt payload2 "appointment_guard") = true →
      processSubmission .appointment (some ip) none true payload2 st2 sess2
        now tok mail =
        .ok (⟨.honeypotReject, tok, 400⟩, st2, issueCsrfToken now tok)) := by
  constructor
  · have hhook : applySimpleRateLimit "request_care" "POST" (some ip) none st now =
        (false, updLog st ip (clearExpired now (st ip) ++ [now])) := by
      simp [applySimpleRateLimit, clientIdentity, hip]
      exact isRateLimited_admitted st ip now hroom
    simp [processSubmission, endpointName, hhook, handleSubmission,
          honeypotField, hhp]
  · intro payload2 st2 sess2 h2
    simp [processSubmission, endpointName, applySimpleRateLimit,
          handleSubmission, honeypotField, h2]

/-- Witness for C2 amended: the concrete honeypot-flagged run on each
endpoint. -/
theorem C2_honeypot_short_circuit_witness :
    processSubmission .care (some "9.9.9.9") none true
      [("service_interest", JVal.str "x")] emptyRateState ⟨none, none⟩ 100 "t"
      (true, "m") =
      .ok (⟨.honeypotReject, "t", 400⟩,
           updLog emptyRateState "9.9.9.9"
             (clearExpired 100 (emptyRateState "9.9.9.9") ++ [100]),
           issueCsrfToken 100 "t") ∧
    processSubmission .appointment (some "9.9.9.9") none true
      [("appointment_guard", JVal.str "y")] emptyRateState ⟨none, none⟩ 100 "t"
      (true, "m") =
      .ok (⟨.honeypotReject, "t", 400⟩, emptyRateState, issueCsrfToken 100 "t") :=
  ⟨(C2_honeypot_short_circuit [("service_interest", JVal.str "x")]
      emptyRateState ⟨none, none⟩ 100 "t" (true, "m") "9.9.9.9" (by decide)
      rfl (by decide)).1,
   (C2_honeypot_short_circuit [("service_interest", JVal.str "x")]
      emptyRateState ⟨none, none⟩ 100 "t" (true, "m") "9.9.9.9" (by decide)
      rfl (by decide)).2 [("appointment_guard", JVal.str "y")] emptyRateState
      ⟨none, none⟩ rfl⟩

/-- C3 counterexample: with the shared bucket of the empty identity `""`
already full, a POST to the care-request endpoint whose forwarded identity
is the empty string is NOT rate-limited — the hook's `if client_ip and
is_rate_limited(client_ip)` short-circuits on the falsy identity, the
limiter state is untouched, and the submission proceeds into the handler.
This falsifies the claim that unidentified clients are still rate-limited
under the empty-string identity. -/
theorem C3_counterexample :
    applySimpleRateLimit "request_care" "POST" (some "") none
      (updLog emptyRateState "" [0, 0, 0, 0, 0]) 1 =
      (false, updLog emptyRateState "" [0, 0, 0, 0, 0]) ∧
    (updLog emptyRateState "" [0, 0, 0, 0, 0]) "" = [0, 0, 0, 0, 0] ∧
    processSubmission .care (some "") none true
      [("service_interest", JVal.str "x")]
      (updLog emptyRateState "" [0, 0, 0, 0, 0]) ⟨none, none⟩ 1 "t" (true, "m") =
      .ok (⟨.honeypotReject, "t", 400⟩,
           updLog emptyRateState "" [0, 0, 0, 0, 0], issueCsrfToken 1 "t") :=
  ⟨rfl, rfl, rfl⟩

/-- C3 amended: when the client identity is empty or missing (empty
`X-Forwarded-For` value, or no forwarded header and no peer address), the
rate-limit check is skipped entirely: the submission bypasses the limiter
and consumes nothing; the limiter is only ever consulted for a non-empty
identity. -/
theorem C3_empty_identity_bypasses (endpoint method : String)
    (xff ra : Option String) (st : RateState) (now : Int)
    (h : strTruthy (clientIdentity xff ra) = false) :
    applySimpleRateLimit endpoint method xff ra st now = (false, st) := by
  by_cases hc : endpoint = "request_care" ∧ method = "POST"
  · cases hci : clientIdentity xff ra with
    | none => simp [applySimpleRateLimit, hc, hci]
    | some ip =>
      have hip : ip = "" := by
        rw [hci] at h
        simpa [strTruthy] using h
      simp [applySimpleRateLimit, hc, hci, hip]
  · simp [applySimpleRateLimit, hc]

/-- Witness for C3 amended: a POST with an empty forwarded identity leaves
the limiter untouched and is not limited. -/
theorem C3_empty_identity_bypasses_witness :
    applySimpleRateLimit "request_care" "POST" (some "") none emptyRateState 7 =
      (false, emptyRateState) :=
  C3_empty_identity_bypasses "request_care" "POST" (some "") none
    emptyRateState 7 rfl

/-- Every `.ok` result of a handler body carries the freshly issued session
and embeds the fresh token in the response: each `return` of the source
calls `issue_csrf_token()`. -/
theorem handleSubmission_session (ep : SubmitEndpoint) (isJson : Bool)
    (payload : List (String × JVal)) (sess : Session) (now : Int)
    (tok : String) (mail : Bool × String) (resp : Response) (sess2 : Session)
    (h : handleSubmission ep isJson payload sess now tok mail =
      .ok (resp, sess2)) :
    sess2 = issueCsrfToken now tok ∧ resp.csrfToken = tok := by
  unfold handleSubmission at h
  repeat' split at h
  all_goals first
    | exact Except.noConfusion h
    | (simp only [Except.ok.injEq, Prod.mk.injEq] at h
       obtain ⟨hr, hs⟩ := h
       exact ⟨hs.symm, by rw [← hr]⟩)

/-- C5: every pipeline response — the 429 of the rate-limit hook, the
invalid-format, honeypot, csrf, bot-timing and validation rejections, and
the sent outcome — embeds the freshly generated token in the response body
and stores it, with the fresh issuance timestamp, in the session; hence,
when the freshly generated token differs from the previously stored one (as
a fresh 128-bit `secrets.token_hex(16)` value does), the previously issued
token no longer equals the session's stored token and no longer passes the
csrf comparison. -/
theorem C5_token_reissue (ep : SubmitEndpoint) (xff ra : Option String)
    (isJson : Bool) (payload : List (String × JVal)) (st : RateState)
    (sess : Session) (now : Int) (tok : String) (mail : Bool × String)
    (resp : Response) (st' : RateState) (sess' : Session)
    (h : processSubmission ep xff ra isJson payload st sess now tok mail =
      .ok (resp, st', sess')) :
    resp.csrfToken = tok ∧ sess'.csrf_token = some tok ∧
    sess'.form_time = some now ∧
    (∀ old, sess.csrf_token = some old → old ≠ tok →
      sess'.csrf_token ≠ some old ∧
      pyEqTokens (some (JVal.str old)) sess'.csrf_token = false) := by
  have key : sess' = issueCsrfToken now tok ∧ resp.csrfToken = tok := by
    unfold processSubmission at h
    by_cases hb : (applySimpleRateLimit (endpointName ep) "POST" xff ra st now).1 = true
    · simp only [hb, if_true, Except.ok.injEq, Prod.mk.injEq] at h
      obtain ⟨hr, _, hs⟩ := h
      exact ⟨hs.symm, by rw [← hr]⟩
    · simp only [Bool.not_eq_true] at hb
      simp only [hb, Bool.false_eq_true, if_false] at h
      cases hh : handleSubmission ep isJson payload sess now tok mail with
      | error e => rw [hh] at h; exact absurd h (by simp)
      | ok pr =>
        rw [hh] at h
        obtain ⟨r, s2⟩ := pr
        simp only [Except.ok.injEq, Prod.mk.injEq] at h
        obtain ⟨hr, _, hs⟩ := h
        obtain ⟨h1, h2⟩ := handleSubmission_session ep isJson payload sess now
          tok mail r s2 hh
        exact ⟨hs ▸ h1, hr ▸ h2⟩
  obtain ⟨hsess, htok⟩ := key
  subst hsess
  refine ⟨htok, rfl, rfl, ?_⟩
  intro old hold hne
  constructor
  · simp [issueCsrfToken]
    exact fun he => hne he.symm
  · simp [issueCsrfToken, pyEqTokens, hne]

/-- Witness for C5: a concrete bot-timing rejection reissues the token
`"t2"`, stores it with the fresh timestamp, and the old token `"tok"` no
longer matches. -/
theorem C5_token_reissue_witness :
    (Response.mk .botTiming "t2" 400).csrfToken = "t2" ∧
    (issueCsrfToken 200 "t2").csrf_token = some "t2" ∧
    (issueCsrfToken 200 "t2").form_time = some 200 ∧
    (∀ old, Session.csrf_token ⟨some "tok", some 199⟩ = some old →
      old ≠ "t2" →
      (issueCsrfToken 200 "t2").csrf_token ≠ some old ∧
      pyEqTokens (some (JVal.str old)) (issueCsrfToken 200 "t2").csrf_token =
        false) :=
  C5_token_reissue .care (some "1.2.3.4") none true
    [("csrf_token", JVal.str "tok")] emptyRateState ⟨some "tok", some 199⟩ 200
    "t2" (true, "m") ⟨.botTiming, "t2", 400⟩
    (updLog emptyRateState "1.2.3.4" [200]) (issueCsrfToken 200 "t2") rfl

/-- C6: a submission that passes the honeypot, rate-limit and token-match
checks but arrives less than `MIN_FILL_SECONDS = 3` seconds after the
session's token issuance is rejected as bot-timing, whatever the rest of the
payload holds — field validation is never reached (the payload's other
fields are fully arbitrary and may even be values on which validation would
raise). -/
theorem C6_bot_timing (ep : SubmitEndpoint) (xff ra : Option String)
    (payload : List (String × JVal)) (st : RateState) (sess : Session)
    (now : Int) (tok : String) (mail : Bool × String) (ft : Int)
    (hlim : (applySimpleRateLimit (endpointName ep) "POST" xff ra st now).1 =
      false)
    (hhp : optTruthy (pGetOpt payload (honeypotField ep)) = false)
    (ht1 : optTruthy (pGetOpt payload "csrf_token") = true)
    (ht2 : pyEqTokens (pGetOpt payload "csrf_token") sess.csrf_token = true)
    (hft : sess.form_time = some ft) (hfast : now - ft < 3) :
    processSubmission ep xff ra true payload st sess now tok mail =
      .ok (⟨.botTiming, tok, 400⟩,
           (applySimpleRateLimit (endpointName ep) "POST" xff ra st now).2,
           issueCsrfToken now tok) := by
  have hbad : formTimeBad sess.form_time now = true := by
    simp [formTimeBad, hft, hfast]
  simp [processSubmission, hlim, handleSubmission, hhp, ht1, ht2, hbad]

/-- Witness for C6: a concrete submission one second after token issuance is
rejected as bot-timing. -/
theorem C6_bot_timing_witness :
    processSubmission .care (some "1.2.3.4") none true
      [("csrf_token", JVal.str "tok")] emptyRateState ⟨some "tok", some 199⟩
      200 "t2" (true, "m") =
      .ok (⟨.botTiming, "t2", 400⟩,
           (applySimpleRateLimit "request_care" "POST" (some "1.2.3.4") none
             emptyRateState 200).2,
           issueCsrfToken 200 "t2") :=
  C6_bot_timing .care (some "1.2.3.4") none [("csrf_token", JVal.str "tok")]
    emptyRateState ⟨some "tok", some 199⟩ 200 "t2" (true, "m") 199
    rfl rfl rfl rfl rfl (by decide)

/-- C7: on a care-request payload whose six required fields all trim to
non-empty strings, a trimmed email value that fails `EMAIL_REGEX` produces
an ErrorSet with exactly one entry, keyed `email` and carrying the format
message (first conjunct); and the format check runs only on a non-empty
trimmed email: when the email trims to the empty string the ErrorSet holds
only the required-field message for `email` (second conjunct). -/
theorem C7_email_validation (payload : List (String × JVal)) :
    (∀ w1 w2 we w4 w5 w6,
      jStrip (pGet payload "full_name") = .ok w1 → w1 ≠ "" →
      jStrip (pGet payload "phone") = .ok w2 → w2 ≠ "" →
      jStrip (pGet payload "email") = .ok we → we ≠ "" →
      jStrip (pGet payload "address") = .ok w4 → w4 ≠ "" →
      jStrip (pGet payload "start_date") = .ok w5 → w5 ≠ "" →
      jStrip (pGet payload "care_type") = .ok w6 → w6 ≠ "" →
      emailMatch we = false →
      validateFields payload careRequiredFields =
        .ok [("email", "Please enter a valid email address.")]) ∧
    (∀ w1 w2 w4 w5 w6,
      jStrip (pGet payload "full_name") = .ok w1 → w1 ≠ "" →
      jStrip (pGet payload "phone") = .ok w2 → w2 ≠ "" →
      jStrip (pGet payload "email") = .ok "" →
      jStrip (pGet payload "address") = .ok w4 → w4 ≠ "" →
      jStrip (pGet payload "start_date") = .ok w5 → w5 ≠ "" →
      jStrip (pGet payload "care_type") = .ok w6 → w6 ≠ "" →
      validateFields payload careRequiredFields =
        .ok [("email", "Valid email is required.")]) := by
  constructor
  · intro w1 w2 we w4 w5 w6 h1 h1' h2 h2' he he' h4 h4' h5 h5' h6 h6' hbad
    simp [validateFields, collectRequiredErrors, careRequiredFields,
          dictInsert, h1, h1', h2, h2', he, he', h4, h4', h5, h5', h6, h6',
          hbad]
  · intro w1 w2 w4 w5 w6 h1 h1' h2 h2' he h4 h4' h5 h5' h6 h6'
    simp [validateFields, collectRequiredErrors, careRequiredFields,
          dictInsert, h1, h1', h2, h2', he, h4, h4', h5, h5', h6, h6']

/-- Witness for C7: the two concrete payloads — a fully filled form with the
malformed email `"not-an-email"`, and the same form with an empty email. -/
theorem C7_email_validation_witness :
    validateFields
      [("full_name", JVal.str "Jane Doe"), ("phone", JVal.str "555-1212"),
       ("email", JVal.str "not-an-email"), ("address", JVal.str "1 Main St"),
       ("start_date", JVal.str "2025-01-01"),
       ("care_type", JVal.str "Companionship")] careRequiredFields =
      .ok [("email", "Please enter a valid email address.")] ∧
    validateFields
      [("full_name", JVal.str "Jane Doe"), ("phone", JVal.str "555-1212"),
       ("email", JVal.str ""), ("address", JVal.str "1 Main St"),
       ("start_date", JVal.str "2025-01-01"),
       ("care_type", JVal.str "Companionship")] careRequiredFields =
      .ok [("email", "Valid email is required.")] :=
  ⟨(C7_email_validation
      [("full_name", JVal.str "Jane Doe"), ("phone", JVal.str "555-1212"),
       ("email", JVal.str "not-an-email"), ("address", JVal.str "1 Main St"),
       ("start_date", JVal.str "2025-01-01"),
       ("care_type", JVal.str "Companionship")]).1
    "Jane Doe" "555-1212" "not-an-email" "1 Main St" "2025-01-01"
    "Companionship" rfl (by decide) rfl (by decide) rfl (by decide) rfl
    (by decide) rfl (by decide) rfl (by decide) rfl,
   (C7_email_validation
      [("full_name", JVal.str "Jane Doe"), ("phone", JVal.str "555-1212"),
       ("email", JVal.str ""), ("address", JVal.str "1 Main St"),
       ("start_date", JVal.str "2025-01-01"),
       ("care_type", JVal.str "Companionship")]).2
    "Jane Doe" "555-1212" "1 Main St" "2025-01-01" "Companionship"
    rfl (by decide) rfl (by decide) rfl rfl (by decide) rfl (by decide) rfl
    (by decide)⟩

/-- C8 counterexample: with every mail variable present but
`MAIL_PORT = "abc"`, `int(os.environ.get('MAIL_PORT', '587'))` raises
`ValueError` before the configuration check and outside the `try` block —
the exception propagates out of `send_email`, refuting the claim that no
exception ever escapes for any environment. -/
theorem C8_counterexample :
    sendEmail ⟨some "smtp.example.com", some "abc", some "user", some "pw",
               some "true", some "false", some "dest@example.com"⟩
      "subject" "reply" "body" .success = .error .valueError :=
  rfl

/-- C8 amended: provided `MAIL_PORT` is absent or parses as a decimal
integer, `send_email` always returns a `(ok, message)` result — a missing
required configuration value yields `(False, <descriptive message>)` and any
exception of the SMTP session is caught; but a non-integer `MAIL_PORT`
raises an uncaught `ValueError` (see the counterexample). -/
theorem C8_no_throw (env : MailEnv) (subj rt body : String)
    (smtp : SmtpOutcome) (p : Int)
    (hp : pyInt ((env.MAIL_PORT).getD "587") = .ok p) :
    isOkB (sendEmail env subj rt body smtp) = true ∧
    ((strTruthy env.MAIL_SERVER && !(p == 0) && strTruthy env.MAIL_USERNAME
        && strTruthy env.MAIL_PASSWORD && strTruthy env.DESTINATION_EMAIL) =
        false →
      sendEmail env subj rt body smtp =
        .ok (false,
          "Email configuration missing. Please set environment variables.")) := by
  constructor
  · simp only [sendEmail, hp]
    by_cases hc : (strTruthy env.MAIL_SERVER && !(p == 0)
        && strTruthy env.MAIL_USERNAME && strTruthy env.MAIL_PASSWORD
        && strTruthy env.DESTINATION_EMAIL) = true
    · rw [if_neg (by simp [hc])]
      cases smtp
      · rfl
      · rfl
    · have hc' : (strTruthy env.MAIL_SERVER && !(p == 0)
          && strTruthy env.MAIL_USERNAME && strTruthy env.MAIL_PASSWORD
          && strTruthy env.DESTINATION_EMAIL) = false := by
        simpa using hc
      rw [if_pos (by simp [hc'])]
      rfl
  · intro hcfg
    simp only [sendEmail, hp]
    rw [if_pos (by simp [hcfg])]

/-- Witness for C8 amended: the all-absent environment (default port "587"
parses) reports missing configuration instead of raising. -/
theorem C8_no_throw_witness :
    sendEmail ⟨none, none, none, none, none, none, none⟩ "s" "r" "b"
      .success =
      .ok (false,
        "Email configuration missing. Please set environment variables.") :=
  (C8_no_throw ⟨none, none, none, none, none, none, none⟩ "s" "r" "b"
    .success 587 rfl).2 rfl

/-- On a payload all of whose values are strings, `payload.get(field, '')`
yields a string for every field. -/
theorem pGet_all_str (payload : List (String × JVal))
    (h : ∀ p ∈ payload, ∃ s, p.2 = JVal.str s) (k : String) :
    ∃ s, pGet payload k = .str s := by
  induction payload with
  | nil => exact ⟨"", rfl⟩
  | cons kv rest ih =>
    obtain ⟨k0, v0⟩ := kv
    by_cases hk : k = k0
    · obtain ⟨s, hs⟩ := h (k0, v0) (by simp)
      exact ⟨s, by simp [pGet, hk]; exact hs⟩
    · obtain ⟨s, hs⟩ := ih fun p hp => h p (by simp [hp])
      exact ⟨s, by simp [pGet, hk]; exact hs⟩

/-- The required-fields loop never raises on an all-string payload. -/
theorem collectRequiredErrors_total (payload : List (String × JVal))
    (h : ∀ p ∈ payload, ∃ s, p.2 = JVal.str s) :
    ∀ (reqs : List (String × String)) (errs : List (String × String)),
      ∃ out, collectRequiredErrors payload reqs errs = .ok out := by
  intro reqs
  induction reqs with
  | nil => exact fun errs => ⟨errs, rfl⟩
  | cons fm rest ih =>
    intro errs
    obtain ⟨f, m⟩ := fm
    obtain ⟨s, hs⟩ := pGet_all_str payload h f
    simp only [collectRequiredErrors, hs, jStrip]
    exact ih _

/-- Field validation never raises on an all-string payload. -/
theorem validateFields_total (payload : List (String × JVal))
    (h : ∀ p ∈ payload, ∃ s, p.2 = JVal.str s)
    (reqs : List (String × String)) :
    ∃ out, validateFields payload reqs = .ok out := by
  obtain ⟨errs, herrs⟩ := collectRequiredErrors_total payload h reqs []
  obtain ⟨s, hs⟩ := pGet_all_str payload h "email"
  simp only [validateFields, herrs, hs, jStrip]
  split
  · exact ⟨_, rfl⟩
  · split
    · exact ⟨_, rfl⟩
    · exact ⟨_, rfl⟩

/-- `sanitize` never raises on a string argument. -/
theorem sanitizeJ_str (s : String) : ∃ out, sanitizeJ (JVal.str s) = .ok out := by
  by_cases hs : jTruthy (JVal.str s) = true
  · exact ⟨stripTagsAndTrim s, by simp [sanitizeJ, hs]⟩
  · have hf : jTruthy (JVal.str s) = false := by
      cases hjt : jTruthy (JVal.str s)
      · rfl
      · exact absurd hjt hs
    exact ⟨"", by simp [sanitizeJ, hf]⟩

/-- The `safe_payload` comprehension never raises on an all-string payload. -/
theorem sanitizePayload_total (payload : List (String × JVal))
    (h : ∀ p ∈ payload, ∃ s, p.2 = JVal.str s) (keys : List String) :
    ∃ out, sanitizePayload payload keys = .ok out := by
  induction keys with
  | nil => exact ⟨[], rfl⟩
  | cons k rest ih =>
    obtain ⟨s, hs⟩ := pGet_all_str payload h k
    obtain ⟨c, hc⟩ := sanitizeJ_str s
    obtain ⟨tail, htail⟩ := ih
    exact ⟨(k, c) :: tail, by simp only [sanitizePayload, hs, hc, htail]⟩

/-- A handler run on an all-string payload always returns a response. -/
theorem handleSubmission_total (ep : SubmitEndpoint) (isJson : Bool)
    (payload : List (String × JVal)) (sess : Session) (now : Int)
    (tok : String) (mail : Bool × String)
    (h : ∀ p ∈ payload, ∃ s, p.2 = JVal.str s) :
    ∃ out, handleSubmission ep isJson payload sess now tok mail = .ok out := by
  obtain ⟨errs, herrs⟩ := validateFields_total payload h (requiredFields ep)
  obtain ⟨safe, hsafe⟩ := sanitizePayload_total payload h (sanitizeKeys ep)
  simp only [handleSubmission, herrs, hsafe]
  split
  · exact ⟨_, rfl⟩
  · split
    · exact ⟨_, rfl⟩
    · split
      · exact ⟨_, rfl⟩
      · split
        · exact ⟨_, rfl⟩
        · split
          · exact ⟨_, rfl⟩
          · exact ⟨_, rfl⟩

/-- C10: a JSON payload that passes the honeypot, token and timing checks
but maps the required field `full_name` to JSON `null` makes the handler
raise an uncaught `AttributeError` (from `.strip()` on a non-string) instead
of returning a validation ErrorSet (first conjunct); and field validation is
total over all-string payloads: on any payload whose values are all strings,
the handler always returns a response, never an exception (second
conjunct). -/
theorem C10_nonstring_values :
    (handleSubmission .care true
        [("csrf_token", JVal.str "tok"), ("full_name", JVal.null)]
        ⟨some "tok", some 100⟩ 200 "new" (true, "sent") =
      .error .attributeError) ∧
    (∀ ep isJson payload sess now tok mail,
      (∀ p ∈ payload, ∃ s, p.2 = JVal.str s) →
      ∃ out, handleSubmission ep isJson payload sess now tok mail =
        Except.ok out) :=
  ⟨rfl, fun ep isJson payload sess now tok mail h =>
    handleSubmission_total ep isJson payload sess now tok mail h⟩

/-- Witness for C10: the all-string empty payload produces a response (a
csrf rejection), not an exception. -/
theorem C10_nonstring_values_witness :
    isOkB (handleSubmission .care true [] ⟨none, none⟩ 0 "t" (true, "m")) =
      true := by
  obtain ⟨out, hout⟩ := C10_nonstring_values.2 .care true [] ⟨none, none⟩ 0
    "t" (true, "m") (by simp)
  rw [hout]
  rfl

end App
